import Mathlib

/-!
Shallow embedding of the core of the `zora` music-library repository, together
with proofs checking its natural-language specification against the code.

Embedded components (translated from the Python source, file by file):
* `app/models/download.py` — the duplicate-detection index over the library
  store (`Download._normalize_text`, `_duration_value`, `_duration_match`,
  `_is_same_track`, `check_duplicate`, `add`, `delete_by_id`).
* `app/services/spotify_import_service.py` — the track-match scorer
  (`slugify`, `strip_noise`, `strip_feat`, `calc_name_match`,
  `calc_artist_match`, `calc_time_match`, `check_forbidden_words`,
  `score_candidate`), URL validation and job submission (`start_job`,
  `_process_job` phase 1), the download wait loop (`_wait_for_download`,
  `_process_single_track` tail) and the resume loop over import tracks.
* `app/services/queue_service.py` — the queue scheduler's worker-spawn
  logic (`_start_processing`, `add`, `_process_queue`), as a small labelled
  transition system over thread interleavings.

Modelling conventions:
* Python strings are `String` / `List Char`; `None` for optional text fields
  is the empty string where the code treats them interchangeably
  (`entry.get('filename') or ''`).
* Python float arithmetic is modelled as exact arithmetic over `ℚ` and `ℝ`
  (`math.exp` becomes `Real.exp`); every concrete comparison proved below has
  a margin far larger than double rounding error.
* `rapidfuzz.fuzz.ratio` is its documented semantics: the normalized InDel
  similarity `200 * lcs(s1, s2) / (|s1| + |s2|)`, with `100` on two empty
  strings.
* `unicodedata.normalize('NFKD', t).encode('ascii', 'ignore')` is modelled
  as dropping non-ASCII characters (the two agree on all ASCII text, which
  is the domain of every concrete statement below).
* Recursions whose argument shrinks by a computed amount carry an explicit
  fuel equal to the input length; every step consumes at least one character,
  so the fuel never runs out and the definitions stay kernel-evaluable.
-/

namespace Zora

/-! ### Character and string helpers -/

/-- Python `\s` on ASCII text: space, tab, newline, carriage return,
vertical tab, form feed. -/
def pyIsSpace (c : Char) : Bool :=
  c = ' ' || c = '\t' || c = '\n' || c = '\r' || c = '\x0b' || c = '\x0c'

/-- Python `str.strip(chars)` for a character predicate: drop matching
characters from both ends. -/
def stripP (p : Char → Bool) (l : List Char) : List Char :=
  ((l.dropWhile p).reverse.dropWhile p).reverse

/-- Python `str.strip()` (whitespace on both ends). -/
def stripWS (l : List Char) : List Char := stripP pyIsSpace l

/-- Lowercase ASCII letter or digit. -/
def isLowerAlnum (c : Char) : Bool :=
  ('a' ≤ c && c ≤ 'z') || ('0' ≤ c && c ≤ '9')

/-- ASCII letter or digit (either case), i.e. Python `[a-zA-Z0-9]`. -/
def isAsciiAlnum (c : Char) : Bool :=
  isLowerAlnum c || ('A' ≤ c && c ≤ 'Z')

/-- Python `\w` restricted to ASCII: letter, digit or underscore. -/
def isWordChar (c : Char) : Bool :=
  isAsciiAlnum c || c = '_'

/-- Replace every maximal run of characters satisfying `bad` by the single
replacement `rep`; the `inRun` flag records whether the previous character
was part of a run (structural recursion, kernel-evaluable). -/
def squashGo (bad : Char → Bool) (rep : List Char) : Bool → List Char → List Char
  | _, [] => []
  | inRun, c :: cs =>
    if bad c then (if inRun then [] else rep) ++ squashGo bad rep true cs
    else c :: squashGo bad rep false cs

/-- `re.sub(r'(bad)+', rep, l)` for a character class `bad`. -/
def squashRuns (bad : Char → Bool) (rep : List Char) (l : List Char) : List Char :=
  squashGo bad rep false l

/-- Substring test, Python's `a in b` on strings. -/
def isSubList (a b : List Char) : Bool :=
  b.tails.any (fun t => a.isPrefixOf t)

/-! ### `Download._normalize_text` (app/models/download.py, lines 107-120) -/

/-- Position just after the first occurrence of `cl`, if any. -/
def afterChar (cl : Char) : List Char → Option (List Char)
  | [] => none
  | c :: cs => if c = cl then some cs else afterChar cl cs

/-- One bracket-removal pass, `re.sub(r'\(OP[^CL]*CL\)', ' ', text)` style:
an opening bracket with a later closing bracket is replaced (with everything
between) by a single space; an unmatched opening bracket is kept.
`fuel` bounds the number of steps; each step consumes at least one
character, so `fuel = length` is always enough. -/
def removeBracketedGo (op cl : Char) : Nat → List Char → List Char
  | 0, l => l
  | _ + 1, [] => []
  | fuel + 1, c :: cs =>
    if c = op then
      match afterChar cl cs with
      | some rest => ' ' :: removeBracketedGo op cl fuel rest
      | none => c :: removeBracketedGo op cl fuel cs
    else c :: removeBracketedGo op cl fuel cs

def removeBracketed (op cl : Char) (l : List Char) : List Char :=
  removeBracketedGo op cl l.length l

/-- Python `text.replace('&', ' and ')`. -/
def replaceAmp : List Char → List Char
  | [] => []
  | c :: cs =>
    if c = '&' then ' ' :: 'a' :: 'n' :: 'd' :: ' ' :: replaceAmp cs
    else c :: replaceAmp cs

/-- `Download._normalize_text`: lowercase, drop `(...)`, `[...]`, `\x7b...\x7d`
segments, replace `&` by ` and `, collapse runs of non-`[a-z0-9\s]` and then
runs of whitespace to single spaces, and strip. -/
def normalizeText (value : String) : List Char :=
  let text := value.data.map Char.toLower
  if text.isEmpty then []
  else
    let text := removeBracketed '(' ')' text
    let text := removeBracketed '[' ']' text
    let text := removeBracketed '\x7b' '\x7d' text
    let text := replaceAmp text
    let text := squashRuns (fun c => !(isLowerAlnum c || pyIsSpace c)) [' '] text
    let text := squashRuns pyIsSpace [' '] text
    stripWS text

/-- `Download._normalize_title` — identical to `_normalize_text`. -/
def normalizeTitle (title : String) : List Char := normalizeText title

/-- `Download._normalize_artist` — identical to `_normalize_text`. -/
def normalizeArtist (artist : String) : List Char := normalizeText artist

/-! ### Duration helpers (app/models/download.py, lines 131-144) -/

/-- `Download._duration_value`: clamp to `0` anything that is not a positive
integer. -/
def durationValue (d : Int) : Int :=
  if d > 0 then d else 0

/-- `Download._duration_match` with the default tolerance of 3 seconds:
both durations must be known (positive) and differ by at most 3. -/
def durationMatch (l r : Int) : Bool :=
  let lv := durationValue l
  let rv := durationValue r
  if lv ≤ 0 || rv ≤ 0 then false
  else (lv - rv).natAbs ≤ 3

/-! ### Library records and the duplicate cache (app/models/download.py) -/

/-- One row of the `downloads` table, as read by the duplicate index. -/
structure DLRecord where
  rid : Nat
  videoId : String
  title : String
  artist : String
  filename : String
  duration : Int
deriving DecidableEq

/-- One entry of the in-memory duplicate cache (`_build_duplicate_cache`). -/
structure DupEntry where
  eid : Nat
  videoId : String
  titleNorm : List Char
  artistNorm : List Char
  filename : String
  duration : Int
deriving DecidableEq

/-- Cache entry built from a store row (`_build_duplicate_cache` loop body). -/
def mkEntry (r : DLRecord) : DupEntry :=
  ⟨r.rid, r.videoId, normalizeTitle r.title, normalizeArtist r.artist,
   r.filename, durationValue r.duration⟩

/-- A locally synthesized placeholder id (`video_id.startswith('local_')`). -/
def isLocalId (l : List Char) : Bool :=
  "local_".data.isPrefixOf l

/-- The `by_video_id` map of the cache at key `vid` (a stripped, non-empty,
non-placeholder id), in store order. -/
def byVideoId (store : List DLRecord) (vid : List Char) : List DupEntry :=
  (store.map mkEntry).filter fun e =>
    let ev := stripWS e.videoId.data
    !ev.isEmpty && !isLocalId ev && ev = vid

/-- The `by_title` map of the cache at key `tn` (a non-empty normalized
title), in store order. -/
def byTitle (store : List DLRecord) (tn : List Char) : List DupEntry :=
  (store.map mkEntry).filter fun e =>
    !e.titleNorm.isEmpty && e.titleNorm = tn

/-- The `by_title_artist` map of the cache at key `(tn, an)`, in store
order. -/
def byTitleArtist (store : List DLRecord) (tn an : List Char) : List DupEntry :=
  (store.map mkEntry).filter fun e =>
    !e.titleNorm.isEmpty && e.titleNorm = tn && !e.artistNorm.isEmpty && e.artistNorm = an

/-- `Download._is_same_track` (lines 215-235): video-id equality
short-circuits; otherwise the normalized titles must agree and either the
artists agree exactly with a tolerant-or-unknown duration, or an artist is
missing and the duration check (±3 s, both known) passes. -/
def isSameTrack (e : DupEntry) (titleNorm artistNorm : List Char)
    (duration : Int) (videoId : List Char) : Bool :=
  let entryVid := stripWS e.videoId.data
  if !videoId.isEmpty && !entryVid.isEmpty && videoId = entryVid then true
  else if titleNorm.isEmpty || titleNorm ≠ e.titleNorm then false
  else
    let entryArtist := e.artistNorm
    let artistExact := !artistNorm.isEmpty && !entryArtist.isEmpty && artistNorm = entryArtist
    let artistMissing := artistNorm.isEmpty || entryArtist.isEmpty
    let durationExact := durationMatch duration e.duration
    let durationUnknown := durationValue duration ≤ 0 || durationValue e.duration ≤ 0
    if artistExact && (durationExact || durationUnknown) then true
    else if artistMissing && durationExact then true
    else false

/-- The candidate loop of `Download.check_duplicate` (lines 348-380):
deduplicate by record id, skip non-matching entries, skip matches with no
filename, return the first match whose file exists, and collect matches
whose file vanished as stale; stale records are deleted from the store at
the end (`_delete_stale_records`). -/
def scanCandidates (fsExists : String → Bool) (store : List DLRecord)
    (titleNorm artistNorm : List Char) (durationVal : Int) (vid : List Char) :
    List DupEntry → List Nat → List Nat → Bool × Option String × List DLRecord
  | [], _, stale =>
    (false, none,
      if stale.isEmpty then store else store.filter fun r => !stale.contains r.rid)
  | e :: rest, seen, stale =>
    if seen.contains e.eid then
      scanCandidates fsExists store titleNorm artistNorm durationVal vid rest seen stale
    else
      let seen' := e.eid :: seen
      if !isSameTrack e titleNorm artistNorm durationVal vid then
        scanCandidates fsExists store titleNorm artistNorm durationVal vid rest seen' stale
      else if e.filename = "" then
        scanCandidates fsExists store titleNorm artistNorm durationVal vid rest seen' stale
      else if fsExists e.filename then (true, some e.filename, store)
      else
        scanCandidates fsExists store titleNorm artistNorm durationVal vid rest seen'
          (e.eid :: stale)

/-- The `candidates` list of `Download.check_duplicate` (lines 345-355):
the `by_video_id` entries for a real id, then the `by_title_artist` and
`by_title` entries for a non-empty normalized title. -/
def dupCandidates (store : List DLRecord) (vid titleNorm artistNorm : List Char) :
    List DupEntry :=
  (if !vid.isEmpty && !isLocalId vid then byVideoId store vid else []) ++
  (if !titleNorm.isEmpty then
    (if !artistNorm.isEmpty then byTitleArtist store titleNorm artistNorm else []) ++
    byTitle store titleNorm
  else [])

/-- `Download.check_duplicate` (lines 330-383).  The cache is a pure
function of the store because every mutation (`add`, `delete_by_id`,
`_delete_stale_records`) invalidates it and `_ensure_duplicate_cache`
rebuilds an invalid cache before the lookup.  `fsExists` models
`(config.DOWNLOAD_DIR / filename).exists()`.  Returns the match flag, the
matched filename, and the store after lazy garbage collection of stale
records. -/
def checkDuplicate (fsExists : String → Bool) (store : List DLRecord)
    (title videoId artist : String) (duration : Int) :
    Bool × Option String × List DLRecord :=
  let vid := stripWS videoId.data
  let titleNorm := normalizeTitle title
  let artistNorm := normalizeArtist artist
  let durationVal := durationValue duration
  let candidates := dupCandidates store vid titleNorm artistNorm
  if candidates.isEmpty then (false, none, store)
  else scanCandidates fsExists store titleNorm artistNorm durationVal vid candidates [] []

/-- `Download.add` (lines 386-397): insert a new row (the cache is
invalidated; in this model the cache is recomputed from the store). -/
def addRecord (store : List DLRecord) (r : DLRecord) : List DLRecord :=
  store ++ [r]

/-- `Download.delete_by_id` (lines 413-421): delete the row with the given
primary key, if present. -/
def deleteById (store : List DLRecord) (i : Nat) : List DLRecord :=
  store.filter fun r => r.rid ≠ i

/-! ### Backtracking pattern matchers

The scorer's regular expressions (`NOISE_PATTERNS`, `FEAT_PATTERN`,
`SPOTIFY_PLAYLIST_RE`) are embedded as backtracking matchers: a pattern
maps an input to the list of possible rests after a match, in the priority
order Python's regex engine tries them (first alternative first, greedy
quantifiers longest first). -/

abbrev Pat := List Char → List (List Char)

/-- Case-insensitive literal matcher core. -/
def litCIGo : List Char → List Char → List (List Char)
  | [], rest => [rest]
  | _ :: _, [] => []
  | p :: ps, c :: cs => if c.toLower = p then litCIGo ps cs else []

/-- Case-insensitive literal (pattern text given lowercase). -/
def pLitCI (pat : String) : Pat := fun input => litCIGo pat.data input

/-- Case-sensitive literal matcher core. -/
def litCSGo : List Char → List Char → List (List Char)
  | [], rest => [rest]
  | _ :: _, [] => []
  | p :: ps, c :: cs => if c = p then litCSGo ps cs else []

/-- Case-sensitive literal. -/
def pLitCS (pat : String) : Pat := fun input => litCSGo pat.data input

/-- Sequencing, preserving backtracking priority. -/
def pSeq (a b : Pat) : Pat := fun input => (a input).flatMap b

/-- Ordered alternation over a list of patterns. -/
def pAlts (ps : List Pat) : Pat := fun input => ps.flatMap (fun p => p input)

/-- Greedy `X*` over a character class: longest match first. -/
def pStarClass (cls : Char → Bool) : Pat := fun input =>
  let k := (input.takeWhile cls).length
  (List.range (k + 1)).map (fun i => input.drop (k - i))

/-- A single character from a class. -/
def pClass (cls : Char → Bool) : Pat := fun input =>
  match input with
  | [] => []
  | c :: cs => if cls c then [cs] else []

/-- Greedy `X?`: with the item first, then without. -/
def pOpt (a : Pat) : Pat := fun input => a input ++ [input]

/-- First rest of a successful match of `p` at the start of `input`. -/
def patMatchAt (p : Pat) (input : List Char) : Option (List Char) :=
  (p input).head?

/-- `re.sub(p, '', text)`: scan left to right, removing non-overlapping
leftmost matches.  Fuel: every step keeps one character or consumes a
non-empty match, so `fuel = length` suffices. -/
def reSubEmptyGo (p : Pat) : Nat → List Char → List Char
  | 0, l => l
  | _ + 1, [] => []
  | fuel + 1, c :: cs =>
    match patMatchAt p (c :: cs) with
    | some rest => reSubEmptyGo p fuel rest
    | none => c :: reSubEmptyGo p fuel cs

def reSubEmpty (p : Pat) (l : List Char) : List Char := reSubEmptyGo p l.length l

/-- `re.search`: index of the first position where `p` matches, if any. -/
def reSearchIdx (p : Pat) : List Char → Option Nat
  | [] => if (p []).isEmpty then none else some 0
  | c :: cs => if !(p (c :: cs)).isEmpty then some 0 else (reSearchIdx p cs).map (· + 1)

/-! ### Text normalization of the scorer
(app/services/spotify_import_service.py, lines 38-76) -/

/-- `official\s*(?:music\s*)?(?:video|audio|lyric(?:s)?|visuali[sz]er)`. -/
def noiseOfficial : Pat :=
  pSeq (pLitCI "official") (pSeq (pStarClass pyIsSpace)
    (pSeq (pOpt (pSeq (pLitCI "music") (pStarClass pyIsSpace)))
      (pAlts [pLitCI "video", pLitCI "audio",
        pSeq (pLitCI "lyric") (pOpt (pLitCI "s")),
        pSeq (pLitCI "visuali")
          (pSeq (pClass (fun c => c.toLower = 's' || c.toLower = 'z')) (pLitCI "er"))])))

/-- The bracket-body alternation of `NOISE_PATTERNS`, in source order. -/
def noiseBody : Pat :=
  pAlts [noiseOfficial,
    pSeq (pLitCI "lyric") (pOpt (pLitCI "s")),
    pLitCI "audio", pLitCI "video", pLitCI "hd", pLitCI "hq", pLitCI "4k",
    pSeq (pLitCI "remastered") (pSeq (pStarClass pyIsSpace) (pStarClass Char.isDigit)),
    pSeq (pLitCI "official")
      (pSeq (pStarClass pyIsSpace)
        (pSeq (pOpt (pSeq (pLitCI "hd") (pStarClass pyIsSpace))) (pLitCI "video")))]

/-- `NOISE_PATTERNS`: `\s*[\(\[\x7b] body [\)\]\x7d]\s*`, case-insensitive. -/
def noisePat : Pat :=
  pSeq (pStarClass pyIsSpace)
    (pSeq (pClass (fun c => c = '(' || c = '[' || c = '\x7b'))
      (pSeq noiseBody
        (pSeq (pClass (fun c => c = ')' || c = ']' || c = '\x7d'))
          (pStarClass pyIsSpace))))

/-- `strip_noise`: `NOISE_PATTERNS.sub('', title).strip()`. -/
def stripNoise (l : List Char) : List Char := stripWS (reSubEmpty noisePat l)

/-- `FEAT_PATTERN`: `\s*[\(\[]?\s*(?:feat\.?|ft\.?|featuring)\s+`,
case-insensitive. -/
def featPat : Pat :=
  pSeq (pStarClass pyIsSpace)
    (pSeq (pOpt (pClass (fun c => c = '(' || c = '[')))
      (pSeq (pStarClass pyIsSpace)
        (pSeq (pAlts [pSeq (pLitCI "feat") (pOpt (pLitCI ".")),
            pSeq (pLitCI "ft") (pOpt (pLitCI ".")),
            pLitCI "featuring"])
          (pSeq (pClass pyIsSpace) (pStarClass pyIsSpace)))))

/-- `strip_feat`: `FEAT_PATTERN.split(text)[0].strip()` — the text before
the first occurrence of the feat pattern, stripped. -/
def stripFeatText (l : List Char) : List Char :=
  match reSearchIdx featPat l with
  | some i => stripWS (l.take i)
  | none => stripWS l

/-- `slugify` (lines 57-65): lowercase, NFKD-fold to ASCII (modelled as
dropping non-ASCII), drop everything outside `[\w\s-]`, collapse runs of
`[-\s]` to a single `-`, and strip dashes. -/
def slugify (l : List Char) : List Char :=
  if l.isEmpty then []
  else
    let t := l.map Char.toLower
    let t := t.filter (fun c => c.toNat < 128)
    let t := t.filter (fun c => isWordChar c || pyIsSpace c || c = '-')
    stripP (fun c => c = '-') (squashRuns (fun c => c = '-' || pyIsSpace c) ['-'] t)

/-! ### Fuzzy scoring (app/services/spotify_import_service.py, lines 82-226) -/

/-- Longest common subsequence length.  The fuel (sum of lengths) shrinks
at every call, so it is exact. -/
def lcsGo : Nat → List Char → List Char → Nat
  | 0, _, _ => 0
  | _ + 1, [], _ => 0
  | _ + 1, _, [] => 0
  | fuel + 1, a :: as, b :: bs =>
    if a = b then lcsGo fuel as bs + 1
    else max (lcsGo fuel as (b :: bs)) (lcsGo fuel (a :: as) bs)

def lcsLen (s1 s2 : List Char) : Nat := lcsGo (s1.length + s2.length) s1 s2

/-- `rapidfuzz.fuzz.ratio`: the normalized InDel similarity
`(1 - indel(s1, s2) / (|s1| + |s2|)) * 100 = 200 * lcs / (|s1| + |s2|)`,
with `100` for two empty strings. -/
def fuzzScore (s1 s2 : List Char) : ℚ :=
  if s1.isEmpty && s2.isEmpty then 100
  else 200 * (lcsLen s1 s2 : ℚ) / ((s1.length : ℚ) + (s2.length : ℚ))

/-- `calc_name_match` (lines 82-88). -/
def calcNameMatch (spotifyTitle ytTitle : String) : ℚ :=
  let s1 := slugify (stripNoise (stripFeatText spotifyTitle.data))
  let s2 := slugify (stripNoise (stripFeatText ytTitle.data))
  if s1.isEmpty || s2.isEmpty then 0
  else fuzzScore s1 s2

/-- Python `max` over a possibly-empty list, with `default=0`. -/
def listMaxQ : List ℚ → ℚ
  | [] => 0
  | x :: xs => xs.foldl max x

/-- `calc_artist_match` (lines 91-139): `-1` when comparison is
impossible; otherwise the best of primary-artist ratio (boosted to at
least 80 on a substring hit), cross ratios, and — when several source
artists exist — a blend with the covered fraction. -/
def calcArtistMatch (spotifyArtists ytArtists : List String) : ℚ :=
  if spotifyArtists.isEmpty || ytArtists.isEmpty then -1
  else
    let slugSp := (spotifyArtists.filter (fun a => a ≠ "")).map (fun a => slugify a.data)
    let slugYt := (ytArtists.filter (fun a => a ≠ "")).map (fun a => slugify a.data)
    if slugSp.isEmpty || slugYt.isEmpty then -1
    else
      let bestPrimary0 := listMaxQ (slugSp.map (fun spA => fuzzScore spA (slugYt.headD [])))
      let ytCombined := List.intercalate [' '] slugYt
      let anyMatch := slugSp.any (fun spA => isSubList spA ytCombined)
      let bestPrimary1 := if anyMatch && bestPrimary0 < 80 then max bestPrimary0 80 else bestPrimary0
      let crossBest := listMaxQ (slugSp.flatMap (fun spA => slugYt.map (fun ytA => fuzzScore spA ytA)))
      let bestPrimary := max bestPrimary1 crossBest
      if slugSp.length ≤ 1 then bestPrimary
      else
        let matchedCount := (slugSp.filter (fun spA =>
          isSubList spA ytCombined || listMaxQ (slugYt.map (fun ya => fuzzScore spA ya)) ≥ 70)).length
        let coverage := ((matchedCount : ℚ) / (slugSp.length : ℚ)) * 100
        max bestPrimary ((bestPrimary + coverage) / 2)

/-- `calc_time_match` (lines 142-145): `exp(-0.1 * |diff|) * 100`. -/
noncomputable def calcTimeMatch (spotifyDurationS ytDurationS : ℝ) : ℝ :=
  Real.exp (-(1 / 10) * |spotifyDurationS - ytDurationS|) * 100

/-- `FORBIDDEN_WORDS` (lines 32-36). -/
def forbiddenWordsList : List String :=
  ["bassboosted", "remix", "remastered", "remaster", "reverb", "bassboost",
   "live", "acoustic", "8daudio", "concert", "acapella", "slowed",
   "instrumental", "cover", "karaoke", "nightcore", "spedup"]

/-- `check_forbidden_words` (lines 150-155): the forbidden words present
in the candidate's slug but absent from the source's slug. -/
def foundForbidden (spotifyTitle ytTitle : String) : List String :=
  let spSlug := slugify spotifyTitle.data
  let ytSlug := slugify ytTitle.data
  forbiddenWordsList.filter (fun w => isSubList w.data ytSlug && !isSubList w.data spSlug)

/-- Whether a Python optional string is truthy (`verified and yt_album and
sp_album`). -/
def albumTruthy : Option String → Bool
  | some s => !s.isEmpty
  | none => false

/-- The album similarity computed inside `score_candidate`:
`fuzz.ratio(slugify(sp_album), slugify(yt_album))`. -/
def albumScoreQ (spAlbum ytAlbum : Option String) : ℚ :=
  fuzzScore (slugify (spAlbum.getD "").data) (slugify (ytAlbum.getD "").data)

/-- `score_candidate` (lines 158-226).  Durations are reals, sentinel `-1`
marks an unknown artist or time score, and the result is `none` on any
hard reject. -/
noncomputable def scoreCandidate (spTitle : String) (spArtists : List String) (spDurationS : ℝ)
    (ytTitle : String) (ytArtists : List String) (ytDurationS : ℝ)
    (ytAlbum : Option String) (spAlbum : Option String) (verified : Bool) : Option ℝ :=
  let nameMatch0 : ℝ := ((calcNameMatch spTitle ytTitle : ℚ) : ℝ)
  let forbiddenList := foundForbidden spTitle ytTitle
  let nameMatch :=
    if forbiddenList.length > 0 then nameMatch0 - 15 * forbiddenList.length else nameMatch0
  if nameMatch < 60 then none
  else
    let artistMatch : ℝ := ((calcArtistMatch spArtists ytArtists : ℚ) : ℝ)
    let hasArtist := artistMatch ≥ 0
    if hasArtist ∧ artistMatch < 70 then none
    else
      let hasDuration := spDurationS > 0 ∧ ytDurationS > 0
      let timeMatch := if hasDuration then calcTimeMatch spDurationS ytDurationS else -1
      if hasDuration ∧ timeMatch < 25 then none
      else
        let average :=
          if hasArtist ∧ hasDuration then
            let avg := (nameMatch + artistMatch) / 2
            if avg ≤ 85 then (avg + timeMatch) / 2 else avg
          else if hasArtist then (nameMatch + artistMatch) / 2
          else if hasDuration then (nameMatch + timeMatch) / 2
          else nameMatch
        let average :=
          if verified ∧ albumTruthy ytAlbum ∧ albumTruthy spAlbum then
            let albumMatch : ℝ := ((albumScoreQ spAlbum ytAlbum : ℚ) : ℝ)
            if albumMatch ≤ 80 then (average + albumMatch) / 2 else average
          else average
        if hasDuration ∧ timeMatch < 50 ∧ average < 75 then none
        else some (min average 100)

/-- The title score after the forbidden-word penalty, as one expression
(the branch on `has_forbidden` subtracts `0` when no word was found). -/
def nameScore (spTitle ytTitle : String) : ℚ :=
  calcNameMatch spTitle ytTitle - 15 * (foundForbidden spTitle ytTitle).length

/-- The duration score as `score_candidate` computes it, `-1` when either
duration is unknown. -/
noncomputable def timeScoreOf (spDurationS ytDurationS : ℝ) : ℝ :=
  if spDurationS > 0 ∧ ytDurationS > 0 then calcTimeMatch spDurationS ytDurationS else -1

/-- The combined score exactly as the specification describes it
("Combine: when both artist and duration scores are known, average
title+artist, and if that average is ≤ 85, average again with duration;
when only one of artist/duration is known, average title with that one;
when neither is known, the combined score is the title score alone"),
with knownness read off the `-1` sentinels. -/
noncomputable def specCombine (name artist time : ℝ) : ℝ :=
  if artist ≥ 0 ∧ time ≥ 0 then
    if (name + artist) / 2 ≤ 85 then ((name + artist) / 2 + time) / 2 else (name + artist) / 2
  else if artist ≥ 0 then (name + artist) / 2
  else if time ≥ 0 then (name + time) / 2
  else name

/-- The combined score the code actually returns for a surviving pair: the
specification's combine formula, additionally averaged once more with the
album similarity when the candidate is verified, both album names are
present, and that similarity is at most 80 (the undocumented album step of
`score_candidate`). -/
noncomputable def specCombinedWithAlbum (spTitle ytTitle : String)
    (spArtists ytArtists : List String) (spDurationS ytDurationS : ℝ)
    (ytAlbum spAlbum : Option String) (verified : Bool) : ℝ :=
  let base := specCombine ((nameScore spTitle ytTitle : ℚ) : ℝ)
    ((calcArtistMatch spArtists ytArtists : ℚ) : ℝ) (timeScoreOf spDurationS ytDurationS)
  if verified ∧ albumTruthy ytAlbum ∧ albumTruthy spAlbum ∧
      ((albumScoreQ spAlbum ytAlbum : ℚ) : ℝ) ≤ 80 then
    (base + ((albumScoreQ spAlbum ytAlbum : ℚ) : ℝ)) / 2
  else base

/-! ### Spotify import submission (app/services/spotify_import_service.py) -/

/-- `SPOTIFY_PLAYLIST_RE`:
`https?://open\.spotify\.com/playlist/([a-zA-Z0-9]+)`, case-sensitive,
searched anywhere in the string. -/
def spotifyPlaylistPat : Pat :=
  pSeq (pLitCS "http") (pSeq (pOpt (pLitCS "s"))
    (pSeq (pLitCS "://open.spotify.com/playlist/")
      (pSeq (pClass isAsciiAlnum) (pStarClass isAsciiAlnum))))

def hasSpotifyPlaylistUrl (url : String) : Bool :=
  (reSearchIdx spotifyPlaylistPat url.data).isSome

structure ImportJob where
  jid : Nat
  playlistUrl : String
  playlistName : String
  status : String
  totalTracks : Nat
  errorMessage : Option String
deriving DecidableEq

/-- A track entry as returned by `SpotifyClient.fetch_playlist_tracks`. -/
structure PlaylistTrack where
  title : String
  artist : String
  album : String
  durationMs : Int
deriving DecidableEq

/-- `SpotifyImportService.start_job` (lines 536-586): URL validation and
the concurrent-import guard run synchronously in the submitter; only when
they pass is the placeholder job row (status `pending`) created and the
background worker started. -/
def startJob (url : String) (jobs : List ImportJob) (newId : Nat) :
    Except String (ImportJob × List ImportJob) :=
  if !hasSpotifyPlaylistUrl url then Except.error "Invalid Spotify playlist URL"
  else if jobs.any (fun j => j.playlistUrl = url && j.status = "processing") then
    Except.error "This playlist is already being imported"
  else
    let job : ImportJob := ⟨newId, url, "Loading...", "pending", 0, none⟩
    Except.ok (job, jobs ++ [job])

/-- Python string slicing `s[:n]`, used to truncate error messages. -/
def truncateStr (n : Nat) (s : String) : String := String.mk (s.data.take n)

/-- Phase 1 of `SpotifyImportService._process_job` (lines 604-645), run on
the background thread: an exception from the playlist fetch (including the
"no tracks found" validation error raised inside
`fetch_playlist_tracks`) marks the existing job row `failed` with the
truncated message; a fetched-but-empty track list likewise marks it
`failed`; otherwise the job row is updated and one pending track row is
created per entry. -/
def processJobPhase1 (fetchResult : Except String (String × List PlaylistTrack))
    (job : ImportJob) : ImportJob × List PlaylistTrack :=
  match fetchResult with
  | Except.error e =>
    ({job with status := "failed", errorMessage := some (truncateStr 500 e)}, [])
  | Except.ok (name, tracksData) =>
    if tracksData.isEmpty then
      ({job with status := "failed",
                 errorMessage := some "Playlist is empty or contains no playable tracks"}, [])
    else
      ({job with status := "processing", playlistName := name,
                 totalTracks := tracksData.length}, tracksData)

/-! ### QueueService worker spawning (app/services/queue_service.py)

`add` appends the item under `queue_lock` and then calls
`_start_processing`, which reads `self.is_processing` and — when it is
false — sets it and starts a worker thread, WITHOUT holding any lock
(lines 181-186).  The state machine below has one atomic step per
bytecode-level action relevant to that race; `workers` holds the program
counters of spawned `_process_queue` threads. -/

inductive AdderPC
  | ready
  | appended
  | sawFlag (busy : Bool)
  | finished
deriving DecidableEq

inductive WorkerPC
  | checkQueue
  | inDownloader
  | exited
deriving DecidableEq

structure QueueState where
  queue : List Nat
  isProcessing : Bool
  adders : List AdderPC
  workers : List WorkerPC
deriving DecidableEq

/-- Number of Downloader calls currently in flight. -/
def inFlight (s : QueueState) : Nat :=
  s.workers.countP (fun w => w = WorkerPC.inDownloader)

inductive QueueAction
  | append (i : Nat) (item : Nat)
  | readFlag (i : Nat)
  | spawn (i : Nat)
  | skipStart (i : Nat)
  | takeItem (w : Nat)
  | finishItem (w : Nat)
  | exitWorker (w : Nat)
deriving DecidableEq

/-- One atomic step.  `append`: the queue append inside `add` (under
`queue_lock`).  `readFlag`/`spawn`/`skipStart`: the unsynchronized
check-then-act of `_start_processing`.  `takeItem`: the worker finds the
queue non-empty and enters `downloader.download`.  `finishItem`: the
download returns and the head item is popped.  `exitWorker`: the worker
finds the queue empty, clears `is_processing` and returns. -/
def queueStep (s : QueueState) : QueueAction → Option QueueState
  | QueueAction.append i item =>
    if s.adders[i]? = some AdderPC.ready then
      some {s with queue := s.queue ++ [item], adders := s.adders.set i AdderPC.appended}
    else none
  | QueueAction.readFlag i =>
    if s.adders[i]? = some AdderPC.appended then
      some {s with adders := s.adders.set i (AdderPC.sawFlag s.isProcessing)}
    else none
  | QueueAction.spawn i =>
    if s.adders[i]? = some (AdderPC.sawFlag false) then
      some {s with isProcessing := true,
                   adders := s.adders.set i AdderPC.finished,
                   workers := s.workers ++ [WorkerPC.checkQueue]}
    else none
  | QueueAction.skipStart i =>
    if s.adders[i]? = some (AdderPC.sawFlag true) then
      some {s with adders := s.adders.set i AdderPC.finished}
    else none
  | QueueAction.takeItem w =>
    if s.workers[w]? = some WorkerPC.checkQueue && !s.queue.isEmpty then
      some {s with workers := s.workers.set w WorkerPC.inDownloader}
    else none
  | QueueAction.finishItem w =>
    if s.workers[w]? = some WorkerPC.inDownloader then
      some {s with queue := s.queue.tail, workers := s.workers.set w WorkerPC.checkQueue}
    else none
  | QueueAction.exitWorker w =>
    if s.workers[w]? = some WorkerPC.checkQueue && s.queue.isEmpty then
      some {s with isProcessing := false, workers := s.workers.set w WorkerPC.exited}
    else none

/-- Run a sequence of enabled steps. -/
def runQueue (s : QueueState) : List QueueAction → Option QueueState
  | [] => some s
  | a :: rest =>
    match queueStep s a with
    | some s' => runQueue s' rest
    | none => none

/-- Two client threads about to call `QueueService.add`, idle scheduler. -/
def initialTwoAdders : QueueState :=
  ⟨[], false, [AdderPC.ready, AdderPC.ready], []⟩

/-- The racy interleaving: both adders append, both read
`is_processing = False`, both set it and spawn a worker; both workers then
find the queue non-empty and call the Downloader. -/
def raceScript : List QueueAction :=
  [QueueAction.append 0 10, QueueAction.append 1 11,
   QueueAction.readFlag 0, QueueAction.readFlag 1,
   QueueAction.spawn 0, QueueAction.spawn 1,
   QueueAction.takeItem 0, QueueAction.takeItem 1]

/-! ### Import track resume loop and download wait
(app/services/spotify_import_service.py) -/

structure ImportTrackRow where
  tid : Nat
  title : String
  artist : String
  status : String
  reason : Option String
deriving DecidableEq

/-- The terminal track statuses skipped by the resume check
(line 641: `if track.status in ('downloaded', 'skipped', 'failed')`). -/
def isTerminalTrackStatus (s : String) : Bool :=
  s = "downloaded" || s = "skipped" || s = "failed"

/-- The per-track loop of `_process_job` phase 2 (lines 639-664): a track
already in a terminal status is skipped untouched (`continue`); any other
track is handed to `_process_single_track` together with its exception
handler, abstracted as `body` (which only ever writes to the track it was
given).  Job-level counter and `current_track` updates touch no track row
and are omitted. -/
def processTracksLoop (body : Nat → ImportTrackRow → ImportTrackRow) :
    Nat → List ImportTrackRow → List ImportTrackRow
  | _, [] => []
  | i, t :: ts =>
    (if isTerminalTrackStatus t.status then t else body i t) ::
      processTracksLoop body (i + 1) ts

structure ActiveEntry where
  aid : String
  status : String
deriving DecidableEq

/-- One poll result of `queue_service.get_all()`. -/
structure QueueSnapshot where
  active : List ActiveEntry
  queued : List String
deriving DecidableEq

/-- `next((item for item in active_list if item.get('id') == job_id), None)`. -/
def findActive (l : List ActiveEntry) (jobId : String) : Option ActiveEntry :=
  l.find? (fun e => e.aid = jobId)

/-- `SpotifyImportService._wait_for_download` (lines 763-792), one
`QueueSnapshot` per poll; running out of snapshots is the timeout.
Success is `completed` or silently vanishing from both lists; `error` and
`skipped` return failure. -/
def waitForDownload (jobId : String) : List QueueSnapshot → Bool
  | [] => false
  | s :: rest =>
    match findActive s.active jobId with
    | none => if s.queued.contains jobId then waitForDownload jobId rest else true
    | some e =>
      if e.status = "completed" then true
      else if e.status = "error" || e.status = "skipped" then false
      else waitForDownload jobId rest

/-- The tail of `_process_single_track` (lines 752-761): on a successful
wait the track is `downloaded`, otherwise `failed` with reason
`'Download timed out'`; the matching job counter is incremented. -/
def afterWait (dlOk : Bool) (track : ImportTrackRow) (downloadedCount failedCount : Nat) :
    ImportTrackRow × Nat × Nat :=
  if dlOk then
    ({track with status := "downloaded"}, downloadedCount + 1, failedCount)
  else
    ({track with status := "failed", reason := some "Download timed out"},
      downloadedCount, failedCount + 1)

/-! ### Concrete records used by individual claims -/

/-- The stored record of the duplicate-lookup scenario: title `"Song"`,
artist `"Artist"`, an existing file, and the given duration. -/
def songRecord (d : Int) : DLRecord := ⟨1, "", "Song", "Artist", "song.m4a", d⟩

/-- A record with a real external catalog id whose duplicate-lookup
round-trip is examined. -/
def catalogRecord : DLRecord := ⟨2, "dQw4w9WgXcQ", "Song", "Artist", "song.m4a", 200⟩

/-- The stored record of the title-only duplicate scenario: artist present
on the record side only, duration 202 s. -/
def titleOnlyRecord : DLRecord := ⟨1, "", "song", "x", "f.m4a", 202⟩

/-- The job row `start_job` creates for the empty-playlist scenario. -/
def emptyPlaylistJob : ImportJob :=
  ⟨1, "https://open.spotify.com/playlist/abc123", "Loading...", "pending", 0, none⟩

/-- The state the racy interleaving reaches: both items queued, both
adders done, and two workers inside the Downloader. -/
def raceFinalState : QueueState :=
  ⟨[10, 11], true, [AdderPC.finished, AdderPC.finished],
   [WorkerPC.inDownloader, WorkerPC.inDownloader]⟩

/-! ## Theorems -/

/-! ### Duplicate-index helper lemmas -/

/-- The candidate scan returns no match when no candidate is the same
track (and then deletes nothing). -/
lemma scanCandidates_all_false (fs : String → Bool) (store : List DLRecord)
    (tn an : List Char) (dv : Int) (vid : List Char)
    (cands : List DupEntry) (seen : List Nat)
    (h : ∀ e ∈ cands, isSameTrack e tn an dv vid = false) :
    scanCandidates fs store tn an dv vid cands seen [] = (false, none, store) := by
  induction cands generalizing seen with
  | nil => simp [scanCandidates]
  | cons e rest ih =>
    have he := h e (List.mem_cons_self e rest)
    have hrest : ∀ x ∈ rest, isSameTrack x tn an dv vid = false :=
      fun x hx => h x (List.mem_cons_of_mem e hx)
    by_cases hseen : seen.contains e.eid = true
    · simp only [scanCandidates]
      rw [if_pos hseen]
      exact ih _ hrest
    · simp only [scanCandidates]
      rw [if_neg hseen, if_pos (by simp [he])]
      exact ih _ hrest

/-- Every candidate the cache offers is an entry of the store. -/
lemma dupCandidates_subset (store : List DLRecord) (vid tn an : List Char) (e : DupEntry)
    (h : e ∈ dupCandidates store vid tn an) : e ∈ store.map mkEntry := by
  rcases List.mem_append.mp h with h1 | h1
  · split at h1
    · exact (List.mem_filter.mp h1).1
    · simp at h1
  · split at h1
    · rcases List.mem_append.mp h1 with h2 | h2
      · split at h2
        · exact (List.mem_filter.mp h2).1
        · simp at h2
      · exact (List.mem_filter.mp h2).1
    · simp at h1

/-- A lookup over a store none of whose records are the same track returns
no match and leaves the store unchanged. -/
lemma checkDuplicate_no_match (fs : String → Bool) (store : List DLRecord)
    (title videoId artist : String) (duration : Int)
    (h : ∀ r ∈ store, isSameTrack (mkEntry r) (normalizeTitle title) (normalizeArtist artist)
        (durationValue duration) (stripWS videoId.data) = false) :
    checkDuplicate fs store title videoId artist duration = (false, none, store) := by
  simp only [checkDuplicate]
  split
  · rfl
  · apply scanCandidates_all_false
    intro e he
    obtain ⟨r, hr, rfl⟩ := List.mem_map.mp (dupCandidates_subset _ _ _ _ _ he)
    exact h r hr

/-- The scan accepts the head candidate when it is the same track, has a
filename, and the file exists. -/
lemma scanCandidates_head_hit (fs : String → Bool) (store : List DLRecord)
    (tn an : List Char) (dv : Int) (vid : List Char) (e : DupEntry) (rest : List DupEntry)
    (hmatch : isSameTrack e tn an dv vid = true)
    (hfile : e.filename ≠ "")
    (hfs : fs e.filename = true) :
    scanCandidates fs store tn an dv vid (e :: rest) [] [] = (true, some e.filename, store) := by
  simp only [scanCandidates]
  rw [if_neg (by simp), if_neg (by simp [hmatch]), if_neg hfile, if_pos hfs]

/-- Appending a record whose stripped id is fresh makes it the only
`by_video_id` entry at that key. -/
lemma byVideoId_append_fresh (s : List DLRecord) (r : DLRecord)
    (hvid1 : stripWS r.videoId.data ≠ [])
    (hvid2 : isLocalId (stripWS r.videoId.data) = false)
    (hnovid : ∀ e ∈ s, stripWS e.videoId.data ≠ stripWS r.videoId.data) :
    byVideoId (s ++ [r]) (stripWS r.videoId.data) = [mkEntry r] := by
  rw [byVideoId, List.map_append, List.filter_append]
  have h1 : (s.map mkEntry).filter (fun e =>
      let ev := stripWS e.videoId.data
      !ev.isEmpty && !isLocalId ev && decide (ev = stripWS r.videoId.data)) = [] := by
    rw [List.filter_eq_nil_iff]
    intro e he
    obtain ⟨x, hx, rfl⟩ := List.mem_map.mp he
    simp [mkEntry, hnovid x hx]
  rw [h1, List.nil_append]
  simp [mkEntry, hvid1, hvid2, List.isEmpty_iff]

/-- A record is the same track as its own query via the video-id
short-circuit. -/
lemma isSameTrack_self_vid (r : DLRecord) (tn an : List Char) (dv : Int)
    (hvid1 : stripWS r.videoId.data ≠ []) :
    isSameTrack (mkEntry r) tn an dv (stripWS r.videoId.data) = true := by
  simp [isSameTrack, mkEntry, List.isEmpty_iff, hvid1]

/-- Deleting a freshly appended record by its id restores the store. -/
lemma deleteById_append_fresh (s : List DLRecord) (r : DLRecord)
    (hfresh : ∀ e ∈ s, e.rid ≠ r.rid) :
    deleteById (s ++ [r]) r.rid = s := by
  rw [deleteById, List.filter_append]
  have h1 : s.filter (fun x => decide (x.rid ≠ r.rid)) = s :=
    List.filter_eq_self.mpr (fun e he => decide_eq_true (hfresh e he))
  rw [h1]
  simp

/-- The two normalizations the C1 scenario depends on: the duplicate
index strips the bracketed annotation from the title but keeps the
`ft. Someone` suffix in the artist, so the stored artist `"Artist"` and
the query artist do not normalize equally and `_is_same_track` fails
for every pair of durations. -/
lemma c1_isSameTrack_false (d1 d2 : Int) :
    isSameTrack (mkEntry (songRecord d2)) (normalizeTitle "Song (Official Video)")
      (normalizeArtist "Artist ft. Someone") (durationValue d1) (stripWS "".data) = false := by
  have h1 : normalizeTitle "Song (Official Video)" = "song".data := by decide
  have h2 : normalizeArtist "Artist ft. Someone" = "artist ft someone".data := by decide
  have h3 : normalizeTitle "Song" = "song".data := by decide
  have h4 : normalizeArtist "Artist" = "artist".data := by decide
  have h5 : ("artist ft someone".data = "artist".data) = False := eq_false (by decide)
  have h6 : (("artist ft someone".data : List Char).isEmpty = true) = False := eq_false (by decide)
  have h7 : (("artist".data : List Char).isEmpty = true) = False := eq_false (by decide)
  rw [h1, h2]
  simp only [isSameTrack, mkEntry, songRecord]
  simp [h3, h4, h5, h6, h7, stripWS, stripP]

/-! ### Scorer bound lemmas -/

lemma lcsGo_le_left : ∀ (f : Nat) (s1 s2 : List Char), lcsGo f s1 s2 ≤ s1.length := by
  intro f
  induction f with
  | zero => intro s1 s2; simp [lcsGo]
  | succ f ih =>
    intro s1 s2
    cases s1 with
    | nil => simp [lcsGo]
    | cons a as =>
      cases s2 with
      | nil => simp [lcsGo]
      | cons b bs =>
        simp only [lcsGo, List.length_cons]
        split
        · exact Nat.succ_le_succ (ih as bs)
        · exact max_le (le_trans (ih as (b :: bs)) (Nat.le_succ _)) (ih (a :: as) bs)

lemma lcsGo_le_right : ∀ (f : Nat) (s1 s2 : List Char), lcsGo f s1 s2 ≤ s2.length := by
  intro f
  induction f with
  | zero => intro s1 s2; simp [lcsGo]
  | succ f ih =>
    intro s1 s2
    cases s1 with
    | nil => simp [lcsGo]
    | cons a as =>
      cases s2 with
      | nil => simp [lcsGo]
      | cons b bs =>
        simp only [lcsGo, List.length_cons]
        split
        · exact Nat.succ_le_succ (ih as bs)
        · exact max_le (ih as (b :: bs)) (le_trans (ih (a :: as) bs) (Nat.le_succ _))

lemma fuzzScore_nonneg (s1 s2 : List Char) : 0 ≤ fuzzScore s1 s2 := by
  rw [fuzzScore]
  split
  · norm_num
  · rename_i hne
    rcases Nat.eq_zero_or_pos (s1.length + s2.length) with h0 | hpos
    · obtain ⟨h1, h2⟩ := Nat.add_eq_zero.mp h0
      rw [List.length_eq_zero] at h1 h2
      subst h1; subst h2
      simp at hne
    · apply div_nonneg
      · positivity
      · have : (0 : ℚ) < (s1.length : ℚ) + (s2.length : ℚ) := by exact_mod_cast hpos
        linarith

lemma fuzzScore_le_100 (s1 s2 : List Char) : fuzzScore s1 s2 ≤ 100 := by
  rw [fuzzScore]
  split
  · norm_num
  · rename_i hne
    rcases Nat.eq_zero_or_pos (s1.length + s2.length) with h0 | hpos
    · obtain ⟨h1, h2⟩ := Nat.add_eq_zero.mp h0
      rw [List.length_eq_zero] at h1 h2
      subst h1; subst h2
      simp at hne
    · have hpos' : (0 : ℚ) < (s1.length : ℚ) + (s2.length : ℚ) := by exact_mod_cast hpos
      rw [div_le_iff₀ hpos']
      have h1 : (lcsLen s1 s2 : ℚ) ≤ (s1.length : ℚ) := by
        exact_mod_cast lcsGo_le_left _ s1 s2
      have h2 : (lcsLen s1 s2 : ℚ) ≤ (s2.length : ℚ) := by
        exact_mod_cast lcsGo_le_right _ s1 s2
      linarith

lemma calcNameMatch_le_100 (t1 t2 : String) : calcNameMatch t1 t2 ≤ 100 := by
  rw [calcNameMatch]
  split
  · norm_num
  · exact fuzzScore_le_100 _ _

lemma listMaxQ_le (l : List ℚ) (c : ℚ) (hc : 0 ≤ c) (h : ∀ x ∈ l, x ≤ c) : listMaxQ l ≤ c := by
  cases l with
  | nil => simpa [listMaxQ] using hc
  | cons x xs =>
    rw [listMaxQ]
    have : ∀ (ys : List ℚ) (y : ℚ), y ≤ c → (∀ z ∈ ys, z ≤ c) → ys.foldl max y ≤ c := by
      intro ys
      induction ys with
      | nil => intro y hy _; simpa using hy
      | cons z zs ih =>
        intro y hy hz
        rw [List.foldl_cons]
        exact ih _ (max_le hy (hz z (List.mem_cons_self z zs)))
          (fun w hw => hz w (List.mem_cons_of_mem z hw))
    exact this xs x (h x (List.mem_cons_self x xs)) (fun w hw => h w (List.mem_cons_of_mem x hw))

lemma calcArtistMatch_le_100 (sp yt : List String) : calcArtistMatch sp yt ≤ 100 := by
  simp only [calcArtistMatch]
  split
  · norm_num
  · split
    · norm_num
    · rename_i hsp hyt
      set slugSp := (sp.filter (fun a => a ≠ "")).map (fun a => slugify a.data) with hssp
      set slugYt := (yt.filter (fun a => a ≠ "")).map (fun a => slugify a.data) with hsyt
      have hb0 : listMaxQ (slugSp.map (fun spA => fuzzScore spA (slugYt.headD []))) ≤ 100 := by
        apply listMaxQ_le _ _ (by norm_num)
        intro x hx
        obtain ⟨a, _, rfl⟩ := List.mem_map.mp hx
        exact fuzzScore_le_100 _ _
      have hcross : listMaxQ (slugSp.flatMap
          (fun spA => slugYt.map (fun ytA => fuzzScore spA ytA))) ≤ 100 := by
        apply listMaxQ_le _ _ (by norm_num)
        intro x hx
        obtain ⟨a, _, hx2⟩ := List.mem_flatMap.mp hx
        obtain ⟨b, _, rfl⟩ := List.mem_map.mp hx2
        exact fuzzScore_le_100 _ _
      have hb1 : (if ((slugSp.any fun spA => isSubList spA (List.intercalate [' '] slugYt)) &&
          decide (listMaxQ (slugSp.map (fun spA => fuzzScore spA (slugYt.headD []))) < 80)) = true then
            max (listMaxQ (slugSp.map (fun spA => fuzzScore spA (slugYt.headD [])))) 80
          else listMaxQ (slugSp.map (fun spA => fuzzScore spA (slugYt.headD [])))) ≤ 100 := by
        split
        · exact max_le hb0 (by norm_num)
        · exact hb0
      split
      · exact max_le hb1 hcross
      · rename_i hlen
        have hone : 1 ≤ slugSp.length := by
          rcases Nat.eq_zero_or_pos slugSp.length with h0 | h1
          · exact absurd h0 (by omega)
          · exact h1
        have hpos : (0 : ℚ) < (slugSp.length : ℚ) := by exact_mod_cast hone
        have hcov : ((slugSp.filter (fun spA =>
            isSubList spA (List.intercalate [' '] slugYt) ||
              decide (listMaxQ (slugYt.map (fun ya => fuzzScore spA ya)) ≥ 70))).length : ℚ) /
            (slugSp.length : ℚ) * 100 ≤ 100 := by
          have hle : ((slugSp.filter (fun spA =>
              isSubList spA (List.intercalate [' '] slugYt) ||
                decide (listMaxQ (slugYt.map (fun ya => fuzzScore spA ya)) ≥ 70))).length : ℚ) ≤
              (slugSp.length : ℚ) := by
            exact_mod_cast List.length_filter_le _ _
          have h1 : ((slugSp.filter (fun spA =>
              isSubList spA (List.intercalate [' '] slugYt) ||
                decide (listMaxQ (slugYt.map (fun ya => fuzzScore spA ya)) ≥ 70))).length : ℚ) /
              (slugSp.length : ℚ) ≤ 1 := by
            rw [div_le_one hpos]
            exact hle
          nlinarith [h1]
        have hmax := max_le hb1 hcross
        apply max_le hmax
        linarith [hcov, hmax]

lemma calcTimeMatch_pos (a b : ℝ) : 0 < calcTimeMatch a b := by
  rw [calcTimeMatch]
  positivity

lemma calcTimeMatch_le_100 (a b : ℝ) : calcTimeMatch a b ≤ 100 := by
  rw [calcTimeMatch]
  have h := Real.exp_le_exp.mpr (show -(1 / 10) * |a - b| ≤ 0 by
    nlinarith [abs_nonneg (a - b)])
  rw [Real.exp_zero] at h
  linarith

/-- The forbidden-word penalty branch of `score_candidate` as one
expression: subtracting `15 * 0` when no word was found changes nothing. -/
lemma namePenalty_collapse (x : ℝ) (k : Nat) :
    (if k > 0 then x - 15 * (k : ℝ) else x) = x - 15 * (k : ℝ) := by
  split
  · rfl
  · rename_i h
    have : k = 0 := by omega
    subst this
    norm_num

/-! ### Scorer evaluation lemmas for the concrete claims -/

lemma slug_tbj : slugify (stripNoise (stripFeatText "Tera Ban Jaunga".data)) =
    "tera-ban-jaunga".data := by decide

lemma slug_lyrics : slugify (stripNoise (stripFeatText "Tera Ban Jaunga (Lyrics)".data)) =
    "tera-ban-jaunga".data := by decide

lemma slug_live : slugify (stripNoise (stripFeatText "Tera Ban Jaunga (Live)".data)) =
    "tera-ban-jaunga-live".data := by decide

lemma fuzz_tbj_self : fuzzScore "tera-ban-jaunga".data "tera-ban-jaunga".data = 100 := by
  rw [fuzzScore, if_neg (by decide)]
  rw [show lcsLen "tera-ban-jaunga".data "tera-ban-jaunga".data = 15 from by decide]
  rw [show ("tera-ban-jaunga".data).length = 15 from by decide]
  norm_num

lemma fuzz_tbj_live : fuzzScore "tera-ban-jaunga".data "tera-ban-jaunga-live".data = 600 / 7 := by
  rw [fuzzScore, if_neg (by decide)]
  rw [show lcsLen "tera-ban-jaunga".data "tera-ban-jaunga-live".data = 15 from by decide]
  rw [show ("tera-ban-jaunga".data).length = 15 from by decide]
  rw [show ("tera-ban-jaunga-live".data).length = 20 from by decide]
  norm_num

lemma name_lyrics : calcNameMatch "Tera Ban Jaunga" "Tera Ban Jaunga (Lyrics)" = 100 := by
  rw [calcNameMatch, slug_tbj, slug_lyrics, if_neg (by decide), fuzz_tbj_self]

lemma name_live : calcNameMatch "Tera Ban Jaunga" "Tera Ban Jaunga (Live)" = 600 / 7 := by
  rw [calcNameMatch, slug_tbj, slug_live, if_neg (by decide), fuzz_tbj_live]

lemma forb_lyrics : foundForbidden "Tera Ban Jaunga" "Tera Ban Jaunga (Lyrics)" = [] := by decide

lemma forb_live : foundForbidden "Tera Ban Jaunga" "Tera Ban Jaunga (Live)" = ["live"] := by decide

lemma slug_akhil : slugify "Akhil Sachdeva".data = "akhil-sachdeva".data := by decide

lemma fuzz_akhil_self : fuzzScore "akhil-sachdeva".data "akhil-sachdeva".data = 100 := by
  rw [fuzzScore, if_neg (by decide)]
  rw [show lcsLen "akhil-sachdeva".data "akhil-sachdeva".data = 14 from by decide]
  rw [show ("akhil-sachdeva".data).length = 14 from by decide]
  norm_num

/-- `calc_artist_match` on a single artist per side whose slugs score at
least 80 and whose source slug occurs in the candidate slug: the score is
the plain fuzzy ratio. -/
lemma calcArtistMatch_single_eval (a b : String) (sa sb : List Char) (q : ℚ)
    (ha : a ≠ "") (hb : b ≠ "")
    (hsa : slugify a.data = sa) (hsb : slugify b.data = sb)
    (hq : fuzzScore sa sb = q) (hsub : isSubList sa sb = true) (hq80 : 80 ≤ q) :
    calcArtistMatch [a] [b] = q := by
  rw [calcArtistMatch, if_neg (by simp)]
  simp only [List.filter_cons, List.filter_nil, ha, hb, decide_not, List.map_cons, List.map_nil,
    List.headD, List.intercalate, List.intersperse, List.flatten, hsa, hsb, hq, hsub,
    List.any_cons, List.any_nil, listMaxQ, List.foldl, List.flatMap_cons, List.flatMap_nil,
    List.append_nil, List.length_cons, List.length_nil, List.isEmpty_cons, Bool.false_or,
    Bool.or_false, Bool.true_or, Bool.or_true, Bool.true_and, Bool.and_true, ha, hb,
    ne_eq, decide_False, decide_True, Bool.not_false, Bool.not_true, if_true, if_false,
    List.isEmpty_nil, Bool.or_self, ite_true, ite_false, Function.comp]
  norm_num [decide_eq_true_eq]
  rw [if_neg (not_lt.mpr hq80)]

lemma artist_akhil : calcArtistMatch ["Akhil Sachdeva"] ["Akhil Sachdeva"] = 100 :=
  calcArtistMatch_single_eval _ _ _ _ 100 (by decide) (by decide) slug_akhil slug_akhil
    fuzz_akhil_self (by decide) (by norm_num)

lemma score_lyrics_eval :
    scoreCandidate "Tera Ban Jaunga" ["Akhil Sachdeva"] 200 "Tera Ban Jaunga (Lyrics)"
      ["Akhil Sachdeva"] 200 none none false = some 100 := by
  rw [scoreCandidate]
  simp only [name_lyrics, forb_lyrics, artist_akhil, albumTruthy]
  norm_num [calcTimeMatch, Real.exp_zero, sub_self, abs_zero]

lemma score_live_eval :
    scoreCandidate "Tera Ban Jaunga" ["Akhil Sachdeva"] 200 "Tera Ban Jaunga (Live)"
      ["Akhil Sachdeva"] 200 none none false = some (1195 / 14) := by
  rw [scoreCandidate]
  simp only [name_live, forb_live, artist_akhil, albumTruthy]
  norm_num [calcTimeMatch, Real.exp_zero, sub_self, abs_zero]

/-! ### C2: the combine formula -/

lemma ite_none_eq_some {c : Prop} [Decidable c] {X : Option ℝ} {s : ℝ}
    (h : (if c then none else X) = some s) : X = some s := by
  by_cases hc : c
  · rw [if_pos hc] at h
    exact absurd h (by simp)
  · rwa [if_neg hc] at h

lemma nameScoreR_eq (t1 t2 : String) : ((nameScore t1 t2 : ℚ) : ℝ) =
    ((calcNameMatch t1 t2 : ℚ) : ℝ) - 15 * ((foundForbidden t1 t2).length : ℝ) := by
  rw [nameScore]
  push_cast
  ring

lemma specCombine_le_100 (NM A T : ℝ) (hNM : NM ≤ 100) (hA : A ≤ 100) (hT : T ≤ 100) :
    specCombine NM A T ≤ 100 := by
  rw [specCombine]
  split_ifs <;> linarith

/-- The value branch of `score_candidate`, over abstract component scores:
the combine-then-album expression, clipped at 100, equals the
specification's combine formula with the album averaging folded into a
single flattened condition (the clip never binds because every component
is at most 100). -/
lemma c2_combine_core (NM A AL spD ytD : ℝ) (v b1 b2 : Bool)
    (hNM : NM ≤ 100) (hA100 : A ≤ 100) :
    (if v = true ∧ b1 = true ∧ b2 = true then
        if AL ≤ 80 then
          ((if A ≥ 0 ∧ spD > 0 ∧ ytD > 0 then
              if (NM + A) / 2 ≤ 85 then
                ((NM + A) / 2 + if spD > 0 ∧ ytD > 0 then calcTimeMatch spD ytD else -1) / 2
              else (NM + A) / 2
            else if A ≥ 0 then (NM + A) / 2
            else if spD > 0 ∧ ytD > 0 then
              (NM + if spD > 0 ∧ ytD > 0 then calcTimeMatch spD ytD else -1) / 2
            else NM) + AL) / 2
        else
          if A ≥ 0 ∧ spD > 0 ∧ ytD > 0 then
            if (NM + A) / 2 ≤ 85 then
              ((NM + A) / 2 + if spD > 0 ∧ ytD > 0 then calcTimeMatch spD ytD else -1) / 2
            else (NM + A) / 2
          else if A ≥ 0 then (NM + A) / 2
          else if spD > 0 ∧ ytD > 0 then
            (NM + if spD > 0 ∧ ytD > 0 then calcTimeMatch spD ytD else -1) / 2
          else NM
      else
        if A ≥ 0 ∧ spD > 0 ∧ ytD > 0 then
          if (NM + A) / 2 ≤ 85 then
            ((NM + A) / 2 + if spD > 0 ∧ ytD > 0 then calcTimeMatch spD ytD else -1) / 2
          else (NM + A) / 2
        else if A ≥ 0 then (NM + A) / 2
        else if spD > 0 ∧ ytD > 0 then
          (NM + if spD > 0 ∧ ytD > 0 then calcTimeMatch spD ytD else -1) / 2
        else NM) ⊓ 100 =
    if v = true ∧ b1 = true ∧ b2 = true ∧ AL ≤ 80 then
      (specCombine NM A (if spD > 0 ∧ ytD > 0 then calcTimeMatch spD ytD else -1) + AL) / 2
    else specCombine NM A (if spD > 0 ∧ ytD > 0 then calcTimeMatch spD ytD else -1) := by
  have hT100 : (if spD > 0 ∧ ytD > 0 then calcTimeMatch spD ytD else -1) ≤ 100 := by
    split
    · exact calcTimeMatch_le_100 _ _
    · norm_num
  have hcomb : (if A ≥ 0 ∧ spD > 0 ∧ ytD > 0 then
        if (NM + A) / 2 ≤ 85 then
          ((NM + A) / 2 + if spD > 0 ∧ ytD > 0 then calcTimeMatch spD ytD else -1) / 2
        else (NM + A) / 2
      else if A ≥ 0 then (NM + A) / 2
      else if spD > 0 ∧ ytD > 0 then
        (NM + if spD > 0 ∧ ytD > 0 then calcTimeMatch spD ytD else -1) / 2
      else NM) =
      specCombine NM A (if spD > 0 ∧ ytD > 0 then calcTimeMatch spD ytD else -1) := by
    rw [specCombine]
    by_cases hD : spD > 0 ∧ ytD > 0
    · have hpos : calcTimeMatch spD ytD ≥ 0 := le_of_lt (calcTimeMatch_pos spD ytD)
      simp only [eq_true hD, if_true, and_true, eq_true hpos, true_and]
    · have hneg : ¬((-1 : ℝ) ≥ 0) := by norm_num
      simp only [eq_false hD, if_false, and_false, eq_false hneg]
  rw [hcomb]
  have hS := specCombine_le_100 NM A _ hNM hA100 hT100
  by_cases hv : v = true ∧ b1 = true ∧ b2 = true
  · by_cases h80 : AL ≤ 80
    · simp only [eq_true hv, eq_true hv.1, eq_true hv.2.1, eq_true hv.2.2, eq_true h80,
        true_and, and_true, if_true]
      rw [min_eq_left (by linarith)]
    · simp only [eq_true hv, eq_true hv.1, eq_true hv.2.1, eq_true hv.2.2, eq_false h80,
        true_and, and_true, and_false, if_true, if_false]
      rw [min_eq_left hS]
  · have hv4 : ¬(v = true ∧ b1 = true ∧ b2 = true ∧ AL ≤ 80) :=
      fun hc => hv ⟨hc.1, hc.2.1, hc.2.2.1⟩
    simp only [eq_false hv, eq_false hv4, if_false]
    exact min_eq_left hS

lemma slug_song : slugify (stripNoise (stripFeatText "song".data)) = "song".data := by decide

lemma fuzz_song_self : fuzzScore "song".data "song".data = 100 := by
  rw [fuzzScore, if_neg (by decide)]
  rw [show lcsLen "song".data "song".data = 4 from by decide]
  rw [show ("song".data).length = 4 from by decide]
  norm_num

lemma name_song : calcNameMatch "song" "song" = 100 := by
  rw [calcNameMatch, slug_song, if_neg (by decide), fuzz_song_self]

lemma forb_song : foundForbidden "song" "song" = [] := by decide

lemma artist_empty : calcArtistMatch [] [] = -1 := rfl

lemma album_ab : albumScoreQ (some "aaaa") (some "bbbb") = 0 := by
  rw [albumScoreQ]
  rw [show slugify ((Option.getD (some "aaaa") "").data) = "aaaa".data from by decide]
  rw [show slugify ((Option.getD (some "bbbb") "").data) = "bbbb".data from by decide]
  rw [fuzzScore, if_neg (by decide)]
  rw [show lcsLen "aaaa".data "bbbb".data = 0 from by decide]
  norm_num

lemma score_song_album_eval :
    scoreCandidate "song" [] 200 "song" [] 200 (some "bbbb") (some "aaaa") true = some 50 := by
  rw [scoreCandidate]
  simp only [name_song, forb_song, artist_empty, albumTruthy, album_ab,
    show "bbbb".isEmpty = false from by decide, show "aaaa".isEmpty = false from by decide]
  norm_num [calcTimeMatch, Real.exp_zero, sub_self, abs_zero]

lemma score_song_plain_eval :
    scoreCandidate "song" [] 200 "song" [] 200 none none false = some 100 := by
  rw [scoreCandidate]
  simp only [name_song, forb_song, artist_empty, albumTruthy]
  norm_num [calcTimeMatch, Real.exp_zero, sub_self, abs_zero]

/-- C2 counterexample: a verified candidate carrying an album name very
unlike the source's ("aaaa" vs "bbbb") survives all hard rejects with
component scores name = 100, artist unknown, duration = 100; the claimed
formula gives 100, but `score_candidate` returns 50, because it averages
once more with the album similarity (0) — a step the claim omits. -/
theorem c2_counterexample :
    scoreCandidate "song" [] 200 "song" [] 200 (some "bbbb") (some "aaaa") true = some 50 ∧
    specCombine ((nameScore "song" "song" : ℚ) : ℝ) ((calcArtistMatch [] [] : ℚ) : ℝ)
      (timeScoreOf 200 200) = 100 ∧
    (50 : ℝ) ≠ 100 := by
  refine ⟨score_song_album_eval, ?_, by norm_num⟩
  rw [show nameScore "song" "song" = 100 from by rw [nameScore, name_song, forb_song]; norm_num]
  rw [artist_empty]
  rw [show timeScoreOf 200 200 = 100 from by
    simp only [timeScoreOf]
    norm_num [calcTimeMatch, Real.exp_zero, sub_self, abs_zero]]
  norm_num [specCombine]

/-- C2 (amended): for every source/candidate pair that survives the hard
rejects, the returned score equals the claimed combine of the title,
artist and duration scores — additionally averaged once more with the
album similarity when the candidate is verified, both album names are
present, and that similarity is at most 80. -/
theorem c2_amended (spT : String) (spA : List String) (spD : ℝ) (ytT : String)
    (ytA : List String) (ytD : ℝ) (ytAl spAl : Option String) (v : Bool) (s : ℝ)
    (h : scoreCandidate spT spA spD ytT ytA ytD ytAl spAl v = some s) :
    s = specCombinedWithAlbum spT ytT spA ytA spD ytD ytAl spAl v := by
  simp only [scoreCandidate] at h
  rw [namePenalty_collapse] at h
  have h4 := ite_none_eq_some (ite_none_eq_some (ite_none_eq_some (ite_none_eq_some h)))
  rw [(Option.some.inj h4).symm]
  simp only [specCombinedWithAlbum]
  rw [nameScoreR_eq]
  simp only [timeScoreOf]
  have hNM : ((calcNameMatch spT ytT : ℚ) : ℝ) -
      15 * ((foundForbidden spT ytT).length : ℝ) ≤ 100 := by
    have q1 : ((calcNameMatch spT ytT : ℚ) : ℝ) ≤ 100 := by
      exact_mod_cast calcNameMatch_le_100 spT ytT
    have q2 : (0 : ℝ) ≤ 15 * ((foundForbidden spT ytT).length : ℝ) := by positivity
    linarith
  have hA100 : ((calcArtistMatch spA ytA : ℚ) : ℝ) ≤ 100 := by
    exact_mod_cast calcArtistMatch_le_100 spA ytA
  exact c2_combine_core _ _ _ _ _ _ _ _ hNM hA100

/-- C2 witness: a surviving pair (no album data, artist unknown, equal
durations) whose returned score 100 matches the amended formula. -/
theorem c2_amended_witness :
    scoreCandidate "song" [] 200 "song" [] 200 none none false = some 100 ∧
    (100 : ℝ) = specCombinedWithAlbum "song" "song" [] [] 200 200 none none false :=
  ⟨score_song_plain_eval,
    c2_amended "song" [] 200 "song" [] 200 none none false 100 score_song_plain_eval⟩

/-- C4 counterexample: with identical metadata and equal durations, the
`(Lyrics)` candidate scores exactly 100 and the `(Live)` candidate scores
`1195/14 ≈ 85.36` — only `205/14 ≈ 14.64` points lower, short of the
claimed 15-point gap (the noise stripper removes `(Lyrics)` entirely,
while `(Live)` keeps its bracketed tag in the slug and loses 15 penalty
points but only on one of the two averaged components). -/
theorem c4_counterexample :
    scoreCandidate "Tera Ban Jaunga" ["Akhil Sachdeva"] 200 "Tera Ban Jaunga (Lyrics)"
      ["Akhil Sachdeva"] 200 none none false = some 100 ∧
    scoreCandidate "Tera Ban Jaunga" ["Akhil Sachdeva"] 200 "Tera Ban Jaunga (Live)"
      ["Akhil Sachdeva"] 200 none none false = some (1195 / 14) ∧
    ¬ ((100 : ℝ) - 1195 / 14 ≥ 15) :=
  ⟨score_lyrics_eval, score_live_eval, by norm_num⟩

/-- C4 (amended): the `(Lyrics)` candidate scores 100 ≥ 80 as claimed, and
the `(Live)` candidate with otherwise identical metadata scores at least
14 points lower (exactly `205/14 ≈ 14.64` points), not 15. -/
theorem c4_amended :
    scoreCandidate "Tera Ban Jaunga" ["Akhil Sachdeva"] 200 "Tera Ban Jaunga (Lyrics)"
      ["Akhil Sachdeva"] 200 none none false = some 100 ∧
    (100 : ℝ) ≥ 80 ∧
    scoreCandidate "Tera Ban Jaunga" ["Akhil Sachdeva"] 200 "Tera Ban Jaunga (Live)"
      ["Akhil Sachdeva"] 200 none none false = some (1195 / 14) ∧
    (100 : ℝ) - 1195 / 14 ≥ 14 :=
  ⟨score_lyrics_eval, by norm_num, score_live_eval, by norm_num⟩

/-- C1 counterexample: against a store holding `"Song"` by `"Artist"`
with an existing file and the same duration (difference `0 ≤ 3` seconds),
`lookup("Song (Official Video)", artist="Artist ft. Someone")` returns no
match — the claim says it must match. -/
theorem c1_counterexample :
    durationMatch 200 200 = true ∧
    (checkDuplicate (fun _ => true) [songRecord 200] "Song (Official Video)" ""
        "Artist ft. Someone" 200).1 = false :=
  ⟨by decide, by decide⟩

/-- C1 (amended): the artist normalization of the duplicate index keeps
the `ft. Someone` suffix, so against a record titled `"Song"` by
`"Artist"` the query `("Song (Official Video)", artist "Artist ft.
Someone")` returns no match for every pair of durations — in particular
it (vacuously) returns no match when both durations are known and differ
by more than 3 seconds, and it also returns no match when they differ by
at most 3 seconds. -/
theorem c1_amended (d1 d2 : Int) (fs : String → Bool) :
    checkDuplicate fs [songRecord d2] "Song (Official Video)" "" "Artist ft. Someone" d1 =
      (false, none, [songRecord d2]) := by
  apply checkDuplicate_no_match
  intro r hr
  rw [List.mem_singleton] at hr
  subst hr
  exact c1_isSameTrack_false d1 d2

/-- C3 counterexample: a query with no artist matches a stored record
whose durations differ by 2 seconds (200 vs 202) — not exactly — so the
title-only path is gated by the ±3 s tolerance, not by exact equality. -/
theorem c3_counterexample :
    checkDuplicate (fun _ => true) [titleOnlyRecord] "song" "" "" 200 =
      (true, some "f.m4a", [titleOnlyRecord]) ∧
    titleOnlyRecord.duration = 202 ∧ (200 : Int) ≠ 202 :=
  ⟨by decide, by decide, by decide⟩

/-- C3 (amended): when the artist is missing on either side and the
video-id short-circuit does not apply, `_is_same_track` accepts only if
`_duration_match` passes, i.e. both durations are known and differ by at
most 3 seconds (not: are exactly equal). -/
theorem c3_amended (e : DupEntry) (titleNorm artistNorm : List Char)
    (duration : Int) (videoId : List Char)
    (hmiss : artistNorm = [] ∨ e.artistNorm = [])
    (hvid : videoId = [] ∨ stripWS e.videoId.data = [] ∨ videoId ≠ stripWS e.videoId.data)
    (h : isSameTrack e titleNorm artistNorm duration videoId = true) :
    durationMatch duration e.duration = true := by
  rcases hvid with h1 | h1 | h1 <;> rcases hmiss with h2 | h2 <;>
    simp [isSameTrack, h1, h2] at h <;> tauto

/-- C3 witness: the accepted title-only match of the counterexample store
indeed satisfies the tolerant duration gate. -/
theorem c3_amended_witness :
    durationMatch 200 (mkEntry titleOnlyRecord).duration = true :=
  c3_amended (mkEntry titleOnlyRecord) "song".data [] 200 []
    (Or.inl rfl) (Or.inl rfl) (by decide)

/-- C5 counterexample: inserting a record with a real external catalog id
whose backing file does not exist and looking it up by that exact id
returns no match — and the lookup even garbage-collects the record — so
the round-trip claim fails without the file-existence condition. -/
theorem c5_counterexample :
    stripWS catalogRecord.videoId.data ≠ [] ∧
    isLocalId (stripWS catalogRecord.videoId.data) = false ∧
    checkDuplicate (fun _ => false) (addRecord [] catalogRecord) catalogRecord.title
      catalogRecord.videoId catalogRecord.artist catalogRecord.duration = (false, none, []) :=
  ⟨by decide, by decide, by decide⟩

/-- C5 (amended): for a record with a real (non-`local_`) catalog id, a
non-empty filename whose file exists, a fresh primary key, and a store
holding no record with the same stripped id nor any record matching the
query: inserting it and looking it up by its exact catalog id returns a
match with its filename, and deleting it and looking it up again returns
no match. -/
theorem c5_amended (r : DLRecord) (s : List DLRecord) (fs : String → Bool)
    (hvid1 : stripWS r.videoId.data ≠ [])
    (hvid2 : isLocalId (stripWS r.videoId.data) = false)
    (hfile1 : r.filename ≠ "")
    (hfile2 : fs r.filename = true)
    (hfresh : ∀ e ∈ s, e.rid ≠ r.rid)
    (hnovid : ∀ e ∈ s, stripWS e.videoId.data ≠ stripWS r.videoId.data)
    (hnomatch : ∀ e ∈ s, isSameTrack (mkEntry e) (normalizeTitle r.title)
        (normalizeArtist r.artist) (durationValue r.duration) (stripWS r.videoId.data) = false) :
    checkDuplicate fs (addRecord s r) r.title r.videoId r.artist r.duration =
      (true, some r.filename, addRecord s r) ∧
    checkDuplicate fs (deleteById (addRecord s r) r.rid) r.title r.videoId r.artist r.duration =
      (false, none, s) := by
  have hb1 : (!(stripWS r.videoId.data).isEmpty && !isLocalId (stripWS r.videoId.data)) = true := by
    simp [List.isEmpty_iff, hvid1, hvid2]
  constructor
  · obtain ⟨tail, hc⟩ : ∃ tail, dupCandidates (addRecord s r) (stripWS r.videoId.data)
        (normalizeTitle r.title) (normalizeArtist r.artist) = mkEntry r :: tail := by
      exact ⟨_, by
        rw [dupCandidates, if_pos hb1, addRecord,
          byVideoId_append_fresh s r hvid1 hvid2 hnovid, List.singleton_append]⟩
    simp only [checkDuplicate]
    rw [hc, if_neg (by simp)]
    exact scanCandidates_head_hit fs (addRecord s r) _ _ _ _ _ tail
      (isSameTrack_self_vid r _ _ _ hvid1) hfile1 hfile2
  · rw [addRecord, deleteById_append_fresh s r hfresh]
    exact checkDuplicate_no_match fs s r.title r.videoId r.artist r.duration hnomatch

/-- C5 witness: the round trip on an initially empty store with the file
present on disk. -/
theorem c5_amended_witness :
    checkDuplicate (fun f => f == "song.m4a") (addRecord [] catalogRecord) catalogRecord.title
      catalogRecord.videoId catalogRecord.artist catalogRecord.duration =
      (true, some catalogRecord.filename, addRecord [] catalogRecord) ∧
    checkDuplicate (fun f => f == "song.m4a")
      (deleteById (addRecord [] catalogRecord) catalogRecord.rid) catalogRecord.title
      catalogRecord.videoId catalogRecord.artist catalogRecord.duration = (false, none, []) :=
  c5_amended catalogRecord [] (fun f => f == "song.m4a") (by decide) (by decide) (by decide)
    (by decide) (by simp) (by simp) (by simp)

/-- C10: a query whose title normalizes to the empty string and whose
catalog id is missing or a `local_` placeholder matches nothing: both
candidate sources are empty, so the lookup returns `(False, None)` and
leaves the store untouched, for every artist, duration, store and
filesystem. -/
theorem c10_empty_title_no_match (fs : String → Bool) (store : List DLRecord)
    (title videoId artist : String) (duration : Int)
    (htitle : normalizeTitle title = [])
    (hvid : stripWS videoId.data = [] ∨ isLocalId (stripWS videoId.data) = true) :
    checkDuplicate fs store title videoId artist duration = (false, none, store) := by
  rcases hvid with hv | hv <;>
    simp [checkDuplicate, dupCandidates, htitle, hv]

/-- C10 witness: the all-bracket title `"(Official Video)"` with the
placeholder id `"local_12345"` never matches, here against a store that
does contain records. -/
theorem c10_empty_title_no_match_witness :
    normalizeTitle "(Official Video)" = [] ∧
    (stripWS "local_12345".data = [] ∨ isLocalId (stripWS "local_12345".data) = true) ∧
    checkDuplicate (fun _ => true) [songRecord 200, catalogRecord] "(Official Video)"
        "local_12345" "Artist" 200 = (false, none, [songRecord 200, catalogRecord]) :=
  ⟨by decide, Or.inr (by decide),
    c10_empty_title_no_match (fun _ => true) [songRecord 200, catalogRecord]
      "(Official Video)" "local_12345" "Artist" 200 (by decide) (Or.inr (by decide))⟩

/-- C8: the resume loop never touches a track whose status is already
terminal (`downloaded`, `skipped` or `failed`): whatever the per-track
processing body does and wherever the loop starts counting, position `j`
of the output still holds the untouched track. -/
theorem c8_terminal_status_stable (body : Nat → ImportTrackRow → ImportTrackRow)
    (start : Nat) (tracks : List ImportTrackRow) (j : Nat) (t : ImportTrackRow)
    (hj : tracks[j]? = some t)
    (hterm : isTerminalTrackStatus t.status = true) :
    (processTracksLoop body start tracks)[j]? = some t := by
  induction tracks generalizing start j with
  | nil => simp at hj
  | cons t0 ts ih =>
    cases j with
    | zero =>
      simp only [List.getElem?_cons_zero, Option.some.injEq] at hj
      subst hj
      simp [processTracksLoop, hterm]
    | succ j =>
      simp only [List.getElem?_cons_succ] at hj
      simpa [processTracksLoop] using ih (start + 1) j hj

/-- C8 witness: a three-track list with a terminal `skipped` track in the
middle and a body that marks everything `failed`. -/
theorem c8_terminal_status_stable_witness :
    ([⟨1, "a", "x", "pending", none⟩, ⟨2, "b", "y", "skipped", none⟩,
        ⟨3, "c", "z", "pending", none⟩] : List ImportTrackRow)[1]? =
      some ⟨2, "b", "y", "skipped", none⟩ ∧
    (processTracksLoop (fun _ t => {t with status := "failed"}) 0
        [⟨1, "a", "x", "pending", none⟩, ⟨2, "b", "y", "skipped", none⟩,
         ⟨3, "c", "z", "pending", none⟩])[1]? = some ⟨2, "b", "y", "skipped", none⟩ :=
  ⟨by decide,
    c8_terminal_status_stable (fun _ t => {t with status := "failed"}) 0 _ 1 _
      (by decide) (by decide)⟩

/-- C9: when a poll shows the queue job in terminal status `skipped` or
`error` (after any number of inconclusive polls), the wait returns
failure, and the orchestrator then marks the import track `failed` with
reason `'Download timed out'` — the same string as a real timeout — and
increments the job's failed counter. -/
theorem c9_skipped_or_error_marks_timeout (jobId : String)
    (pre : List QueueSnapshot) (snap : QueueSnapshot) (rest : List QueueSnapshot)
    (track : ImportTrackRow) (dc fc : Nat) (e : ActiveEntry)
    (hpre : ∀ p ∈ pre, ∃ pe, findActive p.active jobId = some pe ∧
      pe.status ≠ "completed" ∧ pe.status ≠ "error" ∧ pe.status ≠ "skipped")
    (hsnap : findActive snap.active jobId = some e)
    (hterm : e.status = "error" ∨ e.status = "skipped") :
    waitForDownload jobId (pre ++ snap :: rest) = false ∧
    afterWait (waitForDownload jobId (pre ++ snap :: rest)) track dc fc =
      ({track with status := "failed", reason := some "Download timed out"}, dc, fc + 1) := by
  have hwait : waitForDownload jobId (pre ++ snap :: rest) = false := by
    induction pre with
    | nil =>
      simp only [List.nil_append, waitForDownload, hsnap]
      rcases hterm with ht | ht <;> simp [ht]
    | cons p ps ih =>
      obtain ⟨pe, hpe, hc, he, hs⟩ := hpre p (List.mem_cons_self p ps)
      have := ih (fun q hq => hpre q (List.mem_cons_of_mem p hq))
      simpa [waitForDownload, hpe, hc, he, hs] using this
  refine ⟨hwait, ?_⟩
  rw [hwait]
  simp [afterWait]

/-- C9 witness: one inconclusive `downloading` poll followed by a
`skipped` poll (the scheduler worker found a duplicate). -/
theorem c9_skipped_or_error_marks_timeout_witness :
    waitForDownload "j1" [⟨[⟨"j1", "downloading"⟩], []⟩, ⟨[⟨"j1", "skipped"⟩], []⟩] = false ∧
    afterWait (waitForDownload "j1"
        [⟨[⟨"j1", "downloading"⟩], []⟩, ⟨[⟨"j1", "skipped"⟩], []⟩])
        ⟨1, "t", "a", "downloading", none⟩ 0 0 =
      (⟨1, "t", "a", "failed", some "Download timed out"⟩, 0, 1) :=
  c9_skipped_or_error_marks_timeout "j1" [⟨[⟨"j1", "downloading"⟩], []⟩]
    ⟨[⟨"j1", "skipped"⟩], []⟩ [] ⟨1, "t", "a", "downloading", none⟩ 0 0 ⟨"j1", "skipped"⟩
    (by intro p hp
        simp only [List.mem_singleton] at hp
        subst hp
        exact ⟨⟨"j1", "downloading"⟩, by decide, by decide, by decide, by decide⟩)
    (by decide) (Or.inr rfl)

/-- C7: the interleaving `raceScript` — two threads interleaved between
the `is_processing` read and write of `_start_processing` — is a valid
run that ends with two workers inside the Downloader, so it is not the
case that every interleaving keeps at most one Downloader call in
flight. -/
theorem c7_two_downloads_in_flight :
    ¬ (∀ (acts : List QueueAction) (s' : QueueState),
        runQueue initialTwoAdders acts = some s' → inFlight s' ≤ 1) := by
  intro h
  exact absurd (h raceScript raceFinalState (by decide)) (by decide)

/-- C6 counterexample: submitting a syntactically valid playlist URL whose
playlist turns out to be empty does create an `ImportJob` row — the job
table goes from empty to one `pending` row — and the emptiness error is
only detected later, on the background thread, which marks that row
`failed`.  This contradicts the claim that an empty playlist leads to a
synchronous error with no job created. -/
theorem c6_counterexample :
    startJob "https://open.spotify.com/playlist/abc123" [] 1 =
      Except.ok (emptyPlaylistJob, [emptyPlaylistJob]) ∧
    (processJobPhase1 (Except.ok ("My Playlist", [])) emptyPlaylistJob).1.status = "failed" := by
  constructor
  · rw [startJob, if_neg (by decide), if_neg (by decide)]
    rfl
  · decide

/-- C6 (amended): an invalid playlist URL is rejected synchronously inside
`start_job` with no job row created, while an empty playlist is only
detected on the background thread, after the job row exists, and marks
that job `failed` (whether the fetch itself raised or returned an empty
parsed list). -/
theorem c6_amended :
    (∀ (url : String) (jobs : List ImportJob) (newId : Nat),
      hasSpotifyPlaylistUrl url = false →
      startJob url jobs newId = Except.error "Invalid Spotify playlist URL") ∧
    (∀ (job : ImportJob) (name : String) (msg : String),
      (processJobPhase1 (Except.ok (name, [])) job).1.status = "failed" ∧
      (processJobPhase1 (Except.error msg) job).1.status = "failed") := by
  constructor
  · intro url jobs newId h
    simp [startJob, h]
  · intro job name msg
    constructor
    · simp [processJobPhase1]
    · simp [processJobPhase1]

/-- C6 witness: a malformed URL is rejected synchronously; an empty fetch
marks the already-created job failed. -/
theorem c6_amended_witness :
    startJob "notaurl" [] 1 = Except.error "Invalid Spotify playlist URL" ∧
    (processJobPhase1 (Except.ok ("P", [])) emptyPlaylistJob).1.status = "failed" :=
  ⟨c6_amended.1 "notaurl" [] 1 (by decide), (c6_amended.2 emptyPlaylistJob "P" "m").1⟩

end Zora
